import Mathlib

/-!
Shallow embedding of the `simplelog` Go package (src/simplelog.go):
the message model (`msg`, its `String` join and `fit` width fitting),
the level table (`levelSymbol`), and the core emit routine
(`Logger.p`) together with the thin entry points built on it
(`Print`, `Printf`, `Println`, `Progressf`, `Tracef`, `Debugf`,
`Infof`, `Fatalln`).

External collaborators are modelled as explicit data:
time is an integer tick count (Go `time.Time` / `time.Duration` are
nanosecond integers), the formatted clock and the lipgloss style
renderers are function-valued fields of the logger, the terminal
width query result is a field, and the output sink is modelled by
returning the written byte string (the sink itself never fails, so
the returned error is always `none`, matching a healthy writer).
`lipgloss.Width` is modelled for single-line text free of ANSI
escape sequences and wide glyphs: each code point occupies one cell,
so the display width is the code-point count.  All theorems that
depend on rendered widths instantiate the style maps with no styles,
which realises exactly that situation.
-/

/-- Log level (Go: `type LogLevel int`). -/
abbrev LogLevel := Int

/-- Go constant `LogLevelTrace` (iota value 0). -/
def LogLevelTrace : LogLevel := 0

/-- Go constant `LogLevelDebug`. -/
def LogLevelDebug : LogLevel := 1

/-- Go constant `LogLevelInfo`. -/
def LogLevelInfo : LogLevel := 2

/-- Go constant `LogLevelWarn`. -/
def LogLevelWarn : LogLevel := 3

/-- Go constant `LogLevelError`. -/
def LogLevelError : LogLevel := 4

/-- Go constant `LogLevelFatal`. -/
def LogLevelFatal : LogLevel := 5

/-- Go constant `LogLevelProgress LogLevel = 9`. -/
def LogLevelProgress : LogLevel := 9

/-- Go constant `defaulLogLevel = LogLevelInfo` (source spelling kept). -/
def defaulLogLevel : LogLevel := LogLevelInfo

/-- Go constant `defaultTrimMarker = "..."`. -/
def defaultTrimMarker : String := "..."

/-- The seven named values of the `LogLevel` enumeration. -/
def isNamedLevel (lv : LogLevel) : Prop :=
  lv = LogLevelTrace ∨ lv = LogLevelDebug ∨ lv = LogLevelInfo ∨
  lv = LogLevelWarn ∨ lv = LogLevelError ∨ lv = LogLevelFatal ∨
  lv = LogLevelProgress

instance (lv : LogLevel) : Decidable (isNamedLevel lv) := by
  unfold isNamedLevel; infer_instance

/-- Go `levelSymbol`: three-letter code per level, `"???"` for any level
without a switch case (the Progress level included). -/
def levelSymbol (logLevel : LogLevel) : String :=
  if logLevel = LogLevelTrace then "TRC"
  else if logLevel = LogLevelDebug then "DBG"
  else if logLevel = LogLevelInfo then "INF"
  else if logLevel = LogLevelWarn then "WRN"
  else if logLevel = LogLevelError then "ERR"
  else if logLevel = LogLevelFatal then "FTL"
  else "???"

/-- Model of `lipgloss.Width` for single-line text without ANSI escape
sequences or multi-cell glyphs: the display width is the number of code
points. -/
def lipglossWidth (s : String) : Int :=
  (s.length : Int)

/-- Go `msg`: the three string fields of a log message. -/
structure msg where
  TimeStamp : String
  Prefix : String
  Text : String
deriving DecidableEq

/-- Go `(*msg).fit`: shrink the message text so the whole message fits
into `width` display cells; when trimming happens, the trim marker is
appended.  `len(trimMarker)` in Go is the byte length, and the text is
cut by code points via `[]rune` conversion; both are kept. -/
def msg.fit (m : msg) (width : Int) (trimMarker : String) : msg :=
  let spaceCount : Int := if m.TimeStamp ≠ "" then 1 else 0
  let spaceLeft : Int := width - lipglossWidth m.TimeStamp -
    lipglossWidth m.Prefix - lipglossWidth m.Text - spaceCount
  if spaceLeft ≥ 0 then m
  else
    let maxMessageWidth : Int :=
      max ((m.Text.toList.length : Int) + spaceLeft - (trimMarker.utf8ByteSize : Int)) 0
    { m with Text := String.mk (m.Text.toList.take maxMessageWidth.toNat) ++ trimMarker }

/-- Go `(*msg).String`: sequentially append the non-empty fields, each
of timestamp and prefix followed by one space, mirroring the
`strings.Builder` writes. -/
def msg.String (m : msg) : String :=
  let sb := ""
  let sb := if m.TimeStamp ≠ "" then sb ++ m.TimeStamp ++ " " else sb
  let sb := if m.Prefix ≠ "" then sb ++ m.Prefix ++ " " else sb
  sb ++ m.Text

/-- Go `Logger`.  Configuration fields keep their source names.  The
external collaborators appear as data: `FormatClock t` models
`t.Format(l.TimeFormat)`, `TimeStampStyleRender` models
`l.TimeStampStyle.Render`, `Styles lv` is `some f` when the style map
has a non-nil entry for `lv` (`f` modelling that style's `Render`), and
`termWidth` models the column count `term.GetSize` reports for the sink
(0 when the query fails, folded into the field's value). -/
structure Logger where
  TimeFormat : String
  FormatClock : Int → String
  TimeStampStyleRender : String → String
  Styles : LogLevel → Option (String → String)
  StripMessages : Bool
  Level : LogLevel
  TrimMarker : String
  MinProgressUpdatePeriod : Int
  isTerminal : Bool
  termWidth : Int
  lastProgressLineWidth : Int
  lastProgressUpdateTime : Int

/-- Go `(*Logger).getWidth`: current terminal width, 0 for a
non-terminal sink. -/
def Logger.getWidth (l : Logger) : Int :=
  if !l.isTerminal then 0 else l.termWidth

/-- Go `(*Logger).timestamp`: empty when the time format is empty,
otherwise the formatted clock, styled on a terminal sink. -/
def Logger.timestamp (l : Logger) (t : Int) : String :=
  if l.TimeFormat = "" then ""
  else if !l.isTerminal then l.FormatClock t
  else l.TimeStampStyleRender (l.FormatClock t)

/-- Go `(*Logger).prefix` (renamed, `prefix` is a Lean keyword): the
bracketed level symbol used on non-terminal sinks. -/
def Logger.levelTag (logLevel : LogLevel) : String :=
  "|" ++ levelSymbol logLevel ++ "|"

/-- Result of one emit call: the logger state after the call, the byte
string written to the sink (`none` when nothing was written), and the
`(n, err)` pair the Go method returns.  The sink is modelled as always
succeeding, so `err` is always `none` and a successful write returns
the UTF-8 byte count of the written string. -/
structure PResult where
  logger : Logger
  written : Option String
  n : Nat
  err : Option String

/-- Lines 260-283 of `(*Logger).p`: build the `msg` (timestamp,
optional whitespace strip), then either fit to the terminal width and
apply the per-field styles (terminal sink) or set the bracketed level
prefix (file sink), and join the fields. -/
def Logger.buildLine (l : Logger) (now : Int) (logLevel : LogLevel) (s : String) : String :=
  let m : msg := { TimeStamp := l.timestamp now, Prefix := "", Text := s }
  let m := if l.StripMessages then { m with Text := m.Text.trim } else m
  let m :=
    if l.isTerminal then
      let m := m.fit l.getWidth l.TrimMarker
      let m := if m.TimeStamp ≠ "" then
          { m with TimeStamp := l.TimeStampStyleRender m.TimeStamp } else m
      match l.Styles logLevel with
      | some style => { m with Text := style m.Text }
      | none => m
    else
      { m with Prefix := Logger.levelTag logLevel }
  m.String

/-- Lines 283-289 of `(*Logger).p`: the joined line, plus the trailing
spaces that overwrite a previously longer progress line; the padding
count is `max(min(lastProgressLineWidth - w, getWidth() - w), 0)`. -/
def Logger.paddedLine (l : Logger) (now : Int) (logLevel : LogLevel) (s : String) : String :=
  let str := l.buildLine now logLevel s
  let w := lipglossWidth str
  if l.isTerminal = true ∧ w < l.lastProgressLineWidth then
    str ++ String.mk (List.replicate
      (max (min (l.lastProgressLineWidth - w) (l.getWidth - w)) 0).toNat ' ')
  else str

/-- Go `(*Logger).p`, the core emit routine: capture `now`, progress
rate limiting (which updates the stored timestamp before the level
filter runs), level filtering, line building, overwrite padding with
its width reset, recording the progress width, terminator selection,
and the final write. -/
def Logger.p (l : Logger) (now : Int) (logLevel : LogLevel) (s : String) : PResult :=
  if logLevel = LogLevelProgress ∧ l.MinProgressUpdatePeriod > 0 ∧
      now - l.lastProgressUpdateTime < l.MinProgressUpdatePeriod then
    ⟨l, none, 0, none⟩
  else
    let l1 := if logLevel = LogLevelProgress then
        { l with lastProgressUpdateTime := now } else l
    if logLevel < l1.Level then ⟨l1, none, 0, none⟩
    else
      let w := lipglossWidth (l1.buildLine now logLevel s)
      let str := l1.paddedLine now logLevel s
      let l2 := if l1.isTerminal = true ∧ w < l1.lastProgressLineWidth then
          { l1 with lastProgressLineWidth := 0 } else l1
      let l3 := if logLevel = LogLevelProgress then
          { l2 with lastProgressLineWidth := w } else l2
      let out := if logLevel = LogLevelProgress then str ++ "\r" else str ++ "\n"
      ⟨l3, some out, out.utf8ByteSize, none⟩

/-- Go `(*Logger).Print`; the caller's `fmt.Sprint` result is the
string argument. -/
def Logger.Print (l : Logger) (now : Int) (logLevel : LogLevel) (s : String) : PResult :=
  l.p now logLevel s

/-- Go `(*Logger).Printf`; the caller's `fmt.Sprintf` result is the
string argument. -/
def Logger.Printf (l : Logger) (now : Int) (logLevel : LogLevel) (s : String) : PResult :=
  l.p now logLevel s

/-- Go `(*Logger).Println`; `fmt.Sprintln` output with its trailing
newline already cut (`s[:len(s)-1]`) is the string argument. -/
def Logger.Println (l : Logger) (now : Int) (logLevel : LogLevel) (s : String) : PResult :=
  l.p now logLevel s

/-- Go `(*Logger).Progressf`: short-circuits on a non-terminal sink,
otherwise emits at the Progress level. -/
def Logger.Progressf (l : Logger) (now : Int) (s : String) : PResult :=
  if !l.isTerminal then ⟨l, none, 0, none⟩
  else l.p now LogLevelProgress s

/-- Go `(*Logger).Tracef`: forwards to `Printf` with `LogLevelInfo`
(as written in the source). -/
def Logger.Tracef (l : Logger) (now : Int) (s : String) : PResult :=
  l.Printf now LogLevelInfo s

/-- Go `(*Logger).Debugf`: forwards to `Printf` with `LogLevelInfo`
(as written in the source). -/
def Logger.Debugf (l : Logger) (now : Int) (s : String) : PResult :=
  l.Printf now LogLevelInfo s

/-- Go `(*Logger).Infof`: forwards to `Printf` with `LogLevelInfo`. -/
def Logger.Infof (l : Logger) (now : Int) (s : String) : PResult :=
  l.Printf now LogLevelInfo s

/-- Go `(*Logger).Fatalln`: the write it performs before syncing the
sink and exiting the process; it forwards to `Println` with
`LogLevelError`.  The `f.Sync()` and `os.Exit(1)` process effects lie
outside the embedding. -/
def Logger.Fatalln (l : Logger) (now : Int) (s : String) : PResult :=
  l.Println now LogLevelError s

/-! Concrete logger values used by counterexamples and witnesses. -/

/-- A plain interactive logger of terminal width `W`: timestamps
disabled, no styles configured, no whitespace stripping, the default
Info minimum level, and no progress rate limit.  On such a logger the
rendered width of an emitted message equals its code-point count, which
realises the rendered-width premises of the scenarios below. -/
def plainTerminalLogger (W : Int) : Logger where
  TimeFormat := ""
  FormatClock := fun _ => ""
  TimeStampStyleRender := id
  Styles := fun _ => none
  StripMessages := false
  Level := LogLevelInfo
  TrimMarker := defaultTrimMarker
  MinProgressUpdatePeriod := 0
  isTerminal := true
  termWidth := W
  lastProgressLineWidth := 0
  lastProgressUpdateTime := 0

/-- A non-terminal (file) logger with timestamps disabled and default
configuration otherwise. -/
def fileLogger : Logger where
  TimeFormat := ""
  FormatClock := fun _ => ""
  TimeStampStyleRender := id
  Styles := fun _ => none
  StripMessages := false
  Level := LogLevelInfo
  TrimMarker := defaultTrimMarker
  MinProgressUpdatePeriod := 0
  isTerminal := false
  termWidth := 0
  lastProgressLineWidth := 0
  lastProgressUpdateTime := 0

/-- `fileLogger` with a minimum progress update period of 100 time
units and a last accepted progress update at time 0. -/
def rateLogger : Logger :=
  { fileLogger with MinProgressUpdatePeriod := 100, lastProgressUpdateTime := 0 }

/-- C4 counterexample: fitting width 10, empty timestamp and prefix,
body `"0123456789ABCDEF"` and marker `"..."` does not yield the bare
marker; the fitted text is `"0123456..."`. -/
theorem C4_fit_counterexample :
    (msg.fit ⟨"", "", "0123456789ABCDEF"⟩ 10 "...").Text ≠ "..." ∧
    (msg.fit ⟨"", "", "0123456789ABCDEF"⟩ 10 "...").Text = "0123456..." := by
  constructor <;> decide

/-- C4 (amended): fitting a message with target width 10, empty
timestamp, empty prefix, body `"0123456789ABCDEF"` (16 characters) and
trim marker `"..."` yields a fitted body of length 7 before the marker
(`max(0, 16 + (10 - 16) - 3)`), so the resulting message text is
`"0123456..."` (10 characters). -/
theorem C4_fit_amended :
    (msg.fit ⟨"", "", "0123456789ABCDEF"⟩ 10 "...").Text = "0123456" ++ "..." ∧
    (msg.fit ⟨"", "", "0123456789ABCDEF"⟩ 10 "...").Text.length = 10 := by
  constructor <;> decide

/-- C6: the message join renders timestamp, prefix, body in that fixed
order, each non-empty one of timestamp and prefix followed by exactly
one space and empty fields omitted entirely; in particular joining
`("", "", "x")` gives `"x"` and joining `("t", "", "x")` gives
`"t x"`. -/
theorem C6_msg_join :
    (∀ ts px tx : String, msg.String ⟨ts, px, tx⟩ =
      (if ts = "" then "" else ts ++ " ") ++
        ((if px = "" then "" else px ++ " ") ++ tx)) ∧
    msg.String ⟨"", "", "x"⟩ = "x" ∧
    msg.String ⟨"t", "", "x"⟩ = "t x" := by
  refine ⟨fun ts px tx => ?_, by decide, by decide⟩
  unfold msg.String
  by_cases hts : ts = "" <;> by_cases hpx : px = "" <;>
    simp [hts, hpx, String.append_assoc]

/-- C7: `Progressf` on a logger whose sink is not an interactive
terminal returns `(0, nil)`, writes nothing and leaves the whole
logger state unchanged, for every (formatted) message. -/
theorem C7_progressf_not_terminal (l : Logger) (now : Int) (s : String)
    (h : l.isTerminal = false) :
    l.Progressf now s = ⟨l, none, 0, none⟩ := by
  unfold Logger.Progressf
  simp [h]

/-- Witness for C7 at a concrete file logger. -/
theorem C7_progressf_not_terminal_witness :
    fileLogger.Progressf 0 "x" = ⟨fileLogger, none, 0, none⟩ :=
  C7_progressf_not_terminal fileLogger 0 "x" rfl

/-- C9: `Tracef` and `Debugf` are extensionally equal to `Infof`, and
all three forward to `Printf` with `LogLevelInfo`. -/
theorem C9_tracef_debugf_infof (l : Logger) (now : Int) (s : String) :
    l.Tracef now s = l.Infof now s ∧ l.Debugf now s = l.Infof now s ∧
    l.Infof now s = l.Printf now LogLevelInfo s :=
  ⟨rfl, rfl, rfl⟩

/-- C2: a Progress emit within the configured minimum update period
(period set, elapsed time since the stored last update below it) is a
complete no-op — zero bytes written, no error, nothing written to the
sink, and every logger field unchanged, the stored timestamp included;
an accepted Progress emit stores the time captured at the start of the
call as the last progress update time. -/
theorem C2_progress_rate_limiting (l : Logger) (now : Int) (s : String) :
    (l.MinProgressUpdatePeriod > 0 ∧
        now - l.lastProgressUpdateTime < l.MinProgressUpdatePeriod →
      l.p now LogLevelProgress s = ⟨l, none, 0, none⟩) ∧
    (¬(l.MinProgressUpdatePeriod > 0 ∧
        now - l.lastProgressUpdateTime < l.MinProgressUpdatePeriod) →
      (l.p now LogLevelProgress s).logger.lastProgressUpdateTime = now) := by
  constructor
  · intro h
    unfold Logger.p
    rw [if_pos ⟨rfl, h⟩]
  · intro h
    simp only [Logger.p, eq_self_iff_true, true_and, if_neg h, if_pos trivial, if_true]
    split
    · rfl
    · simp only [apply_ite Logger.lastProgressUpdateTime]
      split <;> rfl

/-- Witness for C2: with a minimum period of 100 and a last update at
time 0, a Progress emit at time 10 is a no-op. -/
theorem C2_progress_rate_limiting_witness :
    rateLogger.p 10 LogLevelProgress "x" = ⟨rateLogger, none, 0, none⟩ :=
  (C2_progress_rate_limiting rateLogger 10 "x").1 ⟨by decide, by decide⟩

/-- C3: emitting at any level strictly below the configured minimum
level (the minimum being one of the seven named levels of the
enumeration) returns zero bytes written with no error, writes nothing,
and leaves every logger field unchanged — `lastProgressLineWidth` and
`lastProgressUpdateTime` included. -/
theorem C3_level_filter_frame (l : Logger) (now : Int) (lv : LogLevel) (s : String)
    (hNamed : isNamedLevel l.Level) (h : lv < l.Level) :
    l.p now lv s = ⟨l, none, 0, none⟩ := by
  have hne : ¬(lv = LogLevelProgress) := by
    intro he
    rw [he] at h
    rcases hNamed with h9 | h9 | h9 | h9 | h9 | h9 | h9 <;> rw [h9] at h <;>
      exact absurd h (by decide)
  unfold Logger.p
  rw [if_neg (fun hc => hne hc.1)]
  simp only [if_neg hne]
  rw [if_pos h]

/-- Witness for C3: a Trace emit on a file logger with minimum level
Info is a complete no-op. -/
theorem C3_level_filter_frame_witness :
    fileLogger.p 0 LogLevelTrace "x" = ⟨fileLogger, none, 0, none⟩ :=
  C3_level_filter_frame fileLogger 0 LogLevelTrace "x" (by decide) (by decide)

/-- On a non-terminal sink, an emit that passes the rate limiter and
the level filter writes the joined message — timestamp, bracketed
level symbol, optionally stripped text — followed by the terminator
the level selects. -/
lemma p_file_write (l : Logger) (now : Int) (lv : LogLevel) (s : String)
    (hTerm : l.isTerminal = false)
    (hrl : ¬(lv = LogLevelProgress ∧ l.MinProgressUpdatePeriod > 0 ∧
      now - l.lastProgressUpdateTime < l.MinProgressUpdatePeriod))
    (hfil : ¬(lv < l.Level)) :
    (l.p now lv s).written =
      some (msg.String ⟨l.timestamp now, Logger.levelTag lv,
          if l.StripMessages then s.trim else s⟩ ++
        (if lv = LogLevelProgress then "\r" else "\n")) := by
  by_cases hp : lv = LogLevelProgress
  · have hrl2 : ¬(l.MinProgressUpdatePeriod > 0 ∧
        now - l.lastProgressUpdateTime < l.MinProgressUpdatePeriod) :=
      fun hc => hrl ⟨hp, hc⟩
    subst hp
    by_cases hs : l.StripMessages = true <;>
      simp [Logger.p, Logger.paddedLine, Logger.buildLine, Logger.timestamp, hs, hTerm, hrl2, hfil]
  · by_cases hs : l.StripMessages = true <;>
      simp [Logger.p, Logger.paddedLine, Logger.buildLine, Logger.timestamp, hp, hs, hTerm, hrl, hfil]

/-- C8: the generic entry points do not enforce the terminal-only gate
for progress.  `Print` with `LogLevelProgress` on a non-interactive
sink with the default minimum level (and the default, unset, minimum
progress update period) writes a carriage-return-terminated line whose
level prefix is the unknown-level sentinel `"|???|"`, and `Printf`
behaves identically; `levelSymbol` has no case for the Progress
level. -/
theorem C8_generic_progress_reaches_file (l : Logger) (now : Int) (s : String)
    (hTerm : l.isTerminal = false) (hLevel : l.Level = defaulLogLevel)
    (hPeriod : l.MinProgressUpdatePeriod = 0) :
    (l.Print now LogLevelProgress s).written =
      some (msg.String ⟨l.timestamp now, "|???|",
        if l.StripMessages then s.trim else s⟩ ++ "\r") ∧
    l.Printf now LogLevelProgress s = l.Print now LogLevelProgress s ∧
    levelSymbol LogLevelProgress = "???" := by
  refine ⟨?_, rfl, by decide⟩
  have hw := p_file_write l now LogLevelProgress s hTerm
    (fun hc => by rw [hPeriod] at hc; exact absurd hc.2.1 (by decide))
    (by rw [hLevel]; decide)
  simpa using hw

/-- Witness for C8 at a concrete file logger. -/
theorem C8_generic_progress_reaches_file_witness :
    (fileLogger.Print 0 LogLevelProgress "x").written =
      some (msg.String ⟨fileLogger.timestamp 0, "|???|",
        if fileLogger.StripMessages then ("x" : String).trim else "x"⟩ ++ "\r") :=
  (C8_generic_progress_reaches_file fileLogger 0 "x" rfl rfl rfl).1

/-- C10: `Fatalln` renders its message at Error level, not Fatal
level: it forwards to `Println` with `LogLevelError`, so on a
non-interactive sink (that does not filter the Error level out) the
line written before the process terminates carries the `"|ERR|"`
prefix. -/
theorem C10_fatalln_error_level (l : Logger) (now : Int) (s : String)
    (hTerm : l.isTerminal = false) (hLevel : l.Level ≤ LogLevelError) :
    l.Fatalln now s = l.Println now LogLevelError s ∧
    (l.Fatalln now s).written =
      some (msg.String ⟨l.timestamp now, "|ERR|",
        if l.StripMessages then s.trim else s⟩ ++ "\n") := by
  refine ⟨rfl, ?_⟩
  have hw := p_file_write l now LogLevelError s hTerm
    (fun hc => absurd hc.1 (by decide))
    (fun hc => absurd (lt_of_lt_of_le hc hLevel) (by decide))
  simpa using hw

/-- Witness for C10 at a concrete file logger. -/
theorem C10_fatalln_error_level_witness :
    (fileLogger.Fatalln 0 "x").written =
      some (msg.String ⟨fileLogger.timestamp 0, "|ERR|",
        if fileLogger.StripMessages then ("x" : String).trim else "x"⟩ ++ "\n") :=
  (C10_fatalln_error_level fileLogger 0 "x" rfl (by decide)).2

/-- C5 counterexample: on a width-80 plain interactive logger, a
Progress line of rendered width 20 followed by a Progress line of
rendered width 5 emits a second line whose rendered width before the
terminator is 20 (the message plus 15 overwrite-padding spaces), while
the recorded last-progress-line width is 5 — the width measured before
the padding, not before the terminator. -/
theorem C5_recorded_width_counterexample :
    (((plainTerminalLogger 80).p 0 LogLevelProgress "01234567890123456789").logger.p 1
        LogLevelProgress "hello").written =
      some (("hello" ++ String.mk (List.replicate 15 ' ')) ++ "\r") ∧
    (((plainTerminalLogger 80).p 0 LogLevelProgress "01234567890123456789").logger.p 1
        LogLevelProgress "hello").logger.lastProgressLineWidth = 5 ∧
    lipglossWidth ("hello" ++ String.mk (List.replicate 15 ' ')) = 20 ∧
    (((plainTerminalLogger 80).p 0 LogLevelProgress "01234567890123456789").logger.p 1
        LogLevelProgress "hello").logger.lastProgressLineWidth ≠
      lipglossWidth ("hello" ++ String.mk (List.replicate 15 ' ')) := by
  refine ⟨by decide, by decide, by decide, by decide⟩

/-- C5 (amended): every emitted Progress-level line is exactly the
padded rendered message followed by a single carriage return and no
newline, and the rendered display width of the message measured before
the overwrite padding and the terminator are appended is recorded as
the new last-progress-line width; every emitted non-Progress line is
exactly the padded rendered message followed by a single newline. -/
theorem C5_terminator_amended (l : Logger) (now : Int) (lv : LogLevel)
    (s str : String) (h : (l.p now lv s).written = some str) :
    (lv = LogLevelProgress →
      str = l.paddedLine now lv s ++ "\r" ∧
      (l.p now lv s).logger.lastProgressLineWidth =
        lipglossWidth (l.buildLine now lv s)) ∧
    (lv ≠ LogLevelProgress → str = l.paddedLine now lv s ++ "\n") := by
  by_cases hp : lv = LogLevelProgress
  · subst hp
    refine ⟨fun _ => ?_, fun hne => absurd rfl hne⟩
    simp only [Logger.p, eq_self_iff_true, if_true, true_and] at h ⊢
    by_cases hrl : l.MinProgressUpdatePeriod > 0 ∧
        now - l.lastProgressUpdateTime < l.MinProgressUpdatePeriod
    · rw [if_pos hrl] at h
      exact absurd h (by simp)
    · rw [if_neg hrl] at h ⊢
      by_cases hfil : LogLevelProgress < l.Level
      · rw [if_pos hfil] at h
        exact absurd h (by simp)
      · rw [if_neg hfil] at h ⊢
        obtain rfl := (Option.some.inj h).symm
        exact ⟨rfl, rfl⟩
  · refine ⟨fun he => absurd he hp, fun _ => ?_⟩
    simp only [Logger.p, if_neg hp, false_and] at h
    rw [if_neg (fun hc => hp hc.1)] at h
    by_cases hfil : lv < l.Level
    · rw [if_pos hfil] at h
      exact absurd h (by simp)
    · rw [if_neg hfil] at h
      exact (Option.some.inj h).symm

/-- Witness for the amended C5: an Info emit on a concrete file logger
writes exactly its padded rendered line followed by one newline. -/
theorem C5_terminator_amended_witness :
    ("|INF| x\n" : String) = fileLogger.paddedLine 0 LogLevelInfo "x" ++ "\n" :=
  (C5_terminator_amended fileLogger 0 LogLevelInfo "x" "|INF| x\n" (by decide)).2
    (by decide)

/-- Width fitting leaves a message with empty timestamp and prefix
unchanged whenever its text fits the width. -/
lemma fit_plain (s : String) (width : Int) (tm : String)
    (hfit : (s.length : Int) ≤ width) :
    msg.fit ⟨"", "", s⟩ width tm = ⟨"", "", s⟩ := by
  simp [msg.fit, lipglossWidth]
  intro h
  exact absurd h (by omega)

/-- Joining a message whose timestamp and prefix are empty yields just
its text. -/
lemma string_plain (s : String) : msg.String ⟨"", "", s⟩ = s := by
  simp [msg.String]

/-- On an interactive logger with timestamps disabled, no style for
the emitted level and no stripping, the built line is the message text
itself whenever it fits the terminal width. -/
lemma buildLine_plain (l : Logger) (now : Int) (lv : LogLevel) (s : String)
    (hT : l.isTerminal = true) (hF : l.TimeFormat = "")
    (hS : l.Styles lv = none) (hStrip : l.StripMessages = false)
    (hfit : (s.length : Int) ≤ l.termWidth) :
    l.buildLine now lv s = s := by
  have hw : l.getWidth = l.termWidth := by
    simp [Logger.getWidth, hT]
  have hts : l.timestamp now = "" := by
    simp [Logger.timestamp, hF]
  unfold Logger.buildLine
  rw [hts]
  simp only [hStrip, Bool.false_eq_true, if_false, hT, if_true, hw,
    fit_plain s l.termWidth l.TrimMarker hfit, hS]
  simp [string_plain]

/-- When no previous progress line is recorded (width at most zero),
the padded line is the bare built line: the rendered width of any line
is nonnegative, so the overwrite branch cannot fire. -/
lemma paddedLine_no_pad (l : Logger) (now : Int) (lv : LogLevel) (s : String)
    (hpad : l.lastProgressLineWidth ≤ 0) :
    l.paddedLine now lv s = l.buildLine now lv s := by
  unfold Logger.paddedLine
  rw [if_neg]
  intro hc
  have h0 : (0 : Int) ≤ lipglossWidth (l.buildLine now lv s) := Int.natCast_nonneg _
  have h2 := hc.2
  omega

/-- When no previous progress line is recorded, every emit either
writes nothing or writes exactly the built line followed by its
terminator, with no overwrite padding. -/
lemma p_written_no_pad (l : Logger) (now : Int) (lv : LogLevel) (s : String)
    (hpad : l.lastProgressLineWidth ≤ 0) :
    (l.p now lv s).written = none ∨
    (l.p now lv s).written =
      some (l.buildLine now lv s ++ (if lv = LogLevelProgress then "\r" else "\n")) := by
  by_cases hp : lv = LogLevelProgress
  · subst hp
    by_cases hrl : l.MinProgressUpdatePeriod > 0 ∧
        now - l.lastProgressUpdateTime < l.MinProgressUpdatePeriod
    · left
      unfold Logger.p
      rw [if_pos ⟨rfl, hrl⟩]
    · by_cases hfil : LogLevelProgress < l.Level
      · left
        simp only [Logger.p, eq_self_iff_true, if_true, true_and]
        rw [if_neg hrl, if_pos hfil]
      · right
        simp only [Logger.p, eq_self_iff_true, if_true, true_and]
        rw [if_neg hrl, if_neg hfil]
        have he : ({ l with lastProgressUpdateTime := now } : Logger).paddedLine now
            LogLevelProgress s =
            ({ l with lastProgressUpdateTime := now } : Logger).buildLine now
              LogLevelProgress s :=
          paddedLine_no_pad _ now LogLevelProgress s hpad
        rw [he]
        rfl
  · by_cases hfil : lv < l.Level
    · left
      simp only [Logger.p, hp, false_and, if_false]
      rw [if_pos hfil]
    · right
      simp only [Logger.p, hp, false_and, if_false]
      rw [if_neg hfil]
      rw [paddedLine_no_pad l now lv s hpad]

/-- C1: on a plain interactive logger of terminal width at least 20,
emitting a Progress message of rendered width 20 and then an Info
message of rendered width 5 produces an Info line with exactly 15
trailing spaces appended before its newline (the clamp of the width
difference against the terminal edge), resets the recorded
last-progress-line width to 0, and a third emission of any level then
performs no further padding: whatever it writes is the bare built line
with its terminator. -/
theorem C1_progress_overwrite (W : Int) (hW : 20 ≤ W) (sa sb : String)
    (ha : lipglossWidth sa = 20) (hb : lipglossWidth sb = 5) (ta tb : Int) :
    (((plainTerminalLogger W).p ta LogLevelProgress sa).logger.p tb
        LogLevelInfo sb).written =
      some ((sb ++ String.mk (List.replicate 15 ' ')) ++ "\n") ∧
    (((plainTerminalLogger W).p ta LogLevelProgress sa).logger.p tb
        LogLevelInfo sb).logger.lastProgressLineWidth = 0 ∧
    (∀ (lv : LogLevel) (sc : String) (tc : Int),
      ((((plainTerminalLogger W).p ta LogLevelProgress sa).logger.p tb
          LogLevelInfo sb).logger.p tc lv sc).written = none ∨
      ((((plainTerminalLogger W).p ta LogLevelProgress sa).logger.p tb
          LogLevelInfo sb).logger.p tc lv sc).written =
        some ((((plainTerminalLogger W).p ta LogLevelProgress sa).logger.p tb
            LogLevelInfo sb).logger.buildLine tc lv sc ++
          (if lv = LogLevelProgress then "\r" else "\n"))) := by
  have hfa : (sa.length : Int) ≤ W := by
    unfold lipglossWidth at ha
    omega
  have hfb : (sb.length : Int) ≤ W := by
    unfold lipglossWidth at hb
    omega
  have h5W : (5 : Int) ≤ W := by omega
  have hmin : ((15 : Int) ⊓ (W - 5)).toNat = 15 := by omega
  have ha2 := ha
  have hb2 := hb
  unfold lipglossWidth at ha2 hb2
  have e1 : (plainTerminalLogger W).p ta LogLevelProgress sa =
      ⟨({ plainTerminalLogger W with
          lastProgressUpdateTime := ta,
          lastProgressLineWidth := 20 }),
        some (sa ++ "\r"), (sa ++ "\r").utf8ByteSize, none⟩ := by
    simp [Logger.p, Logger.paddedLine, Logger.buildLine, Logger.timestamp,
      Logger.getWidth, msg.fit, msg.String, lipglossWidth, plainTerminalLogger,
      LogLevelProgress, LogLevelInfo, defaultTrimMarker, ha2, hfa, hW]
  have e2 : (({ plainTerminalLogger W with
        lastProgressUpdateTime := ta,
        lastProgressLineWidth := 20 } : Logger)).p tb LogLevelInfo sb =
      ⟨({ plainTerminalLogger W with
          lastProgressUpdateTime := ta,
          lastProgressLineWidth := 0 }),
        some ((sb ++ String.mk (List.replicate 15 ' ')) ++ "\n"),
        ((sb ++ String.mk (List.replicate 15 ' ')) ++ "\n").utf8ByteSize, none⟩ := by
    simp [Logger.p, Logger.paddedLine, Logger.buildLine, Logger.timestamp,
      Logger.getWidth, msg.fit, msg.String, lipglossWidth, plainTerminalLogger,
      LogLevelProgress, LogLevelInfo, defaultTrimMarker, hb2, hfb, hW, h5W, hmin]
  rw [e1, e2]
  refine ⟨rfl, rfl, ?_⟩
  intro lv sc tc
  exact p_written_no_pad _ tc lv sc (le_refl 0)

/-- Witness for C1 at terminal width 80, a 20-character progress
message, and the 5-character Info message `"hello"`. -/
theorem C1_progress_overwrite_witness :
    (((plainTerminalLogger 80).p 0 LogLevelProgress "01234567890123456789").logger.p 1
        LogLevelInfo "hello").written =
      some (("hello" ++ String.mk (List.replicate 15 ' ')) ++ "\n") :=
  (C1_progress_overwrite 80 (by decide) "01234567890123456789" "hello"
    (by decide) (by decide) 0 1).1
